import Mathlib

/-!
Verification development for the Lexia AI agent starter kit.

The development shallowly embeds the agent's core components:

- `ConversationManager` (src/memory/conversation_manager.py): a bounded
  per-thread message log.  `conversations` is a dict keyed by thread id and
  every operation touches only the addressed thread's list, so the embedding
  carries a single thread's list explicitly; the wall-clock timestamp of
  `_get_timestamp` is passed in as an explicit argument.
- `format_system_prompt` and `format_messages_for_openai`
  (src/agent_utils.py): pure prompt/message formatting.
- The streamed tool-call accumulation loop of `process_message`
  (src/main.py, lines 324-357), including the possibility of an
  `IndexError` escaping the loop, modelled with `Except`.
- The orchestrator's own function-processing loop and finalization
  (src/main.py, lines 362-430).  External effects are modelled explicitly:
  streamed chunks sent to Lexia, the final `complete_response`, and
  `send_error` become `TurnEvent`s; the upstream OpenAI stream is an
  oracle parameter (`Except` for a failing call); `json.loads` of the
  argument buffer followed by the DALL-E call is an oracle
  `AccumulatedCall → CallOutcome`, whose `failure` case covers both a JSON
  parse error and a DALL-E error (both are caught by the same `except`).
- `execute_function_call` and `process_function_calls`
  (src/function_handler.py): the dispatcher module.  Its calls to
  `lexia_handler.stream_chunk` are fire-and-forget progress messages to an
  external collaborator that never feed back into the returned values, so
  the embedding keeps the returned `(result_text, file_url)` pair.

Python truthiness of optional strings (`None` and `""` are falsy) is
modelled by `truthy`.  PDF and image attachment handling in
`process_message` (lines 209-262) only rewrites the outbound provider
message list and catches its own exceptions (lines 248-251), so it is
absorbed into the stream oracle and does not appear separately.
-/

/-- One message stored by `ConversationManager`: the dict
`\x7b'role', 'content', 'timestamp'\x7d` built in `add_message`. -/
structure StoredMessage where
  role : String
  content : String
  timestamp : String
deriving Repr, DecidableEq

/-- `ConversationManager.add_message` for one thread: append the new
message, then `pop(0)` if the length now exceeds `max_history`. -/
def add_message (max_history : Nat) (thread : List StoredMessage)
    (role content timestamp : String) : List StoredMessage :=
  let thread' := thread ++ [{ role := role, content := content, timestamp := timestamp }]
  if max_history < thread'.length then thread'.drop 1 else thread'

/-- `ConversationManager.get_history` for a thread already present in
`conversations` (an absent thread yields `[]`, i.e. the empty list). -/
def get_history (thread : List StoredMessage) : List StoredMessage :=
  thread

/-- Python truthiness of an optional string: `None` and `""` are falsy. -/
def truthy : Option String → Bool
  | none => false
  | some s => s != ""

/-- `format_system_prompt` from src/agent_utils.py: default base prompt,
overridden by a truthy `system_message`; a truthy `project_system_message`
is appended as a labeled section after a blank line. -/
def format_system_prompt (system_message project_system_message : Option String) : String :=
  let base_prompt := "You are a helpful AI assistant."
  let base_prompt :=
    match system_message with
    | some s => if s != "" then s else base_prompt
    | none => base_prompt
  match project_system_message with
  | some p => if p != "" then base_prompt ++ "\n\nProject Context: " ++ p else base_prompt
  | none => base_prompt

/-- One entry of the message list sent to OpenAI: a
`\x7b'role', 'content'\x7d` dict. -/
structure OAIMessage where
  role : String
  content : String
deriving Repr, DecidableEq

/-- `format_messages_for_openai` from src/agent_utils.py: system entry,
then the history with timestamps dropped, then the current message as a
final user entry. -/
def format_messages_for_openai (system_prompt : String)
    (conversation_history : List StoredMessage) (current_message : String) :
    List OAIMessage :=
  { role := "system", content := system_prompt } ::
    (conversation_history.map fun m => { role := m.role, content := m.content }) ++
      [{ role := "user", content := current_message }]

/-- The `function` part of a streamed tool-call delta
(`tool_call.function`): optional name and optional argument fragment. -/
structure FunctionDelta where
  name : Option String
  arguments : Option String
deriving Repr, DecidableEq

/-- One streamed tool-call delta (`tool_call` in the stream loop of
src/main.py): zero-based call index, optional id, optional function part. -/
structure ToolCallDelta where
  index : Nat
  id : Option String
  function : Option FunctionDelta
deriving Repr, DecidableEq

/-- One accumulated entry of the `function_calls` list built by the stream
loop: the dict `\x7b'id', 'type', 'function': \x7b'name', 'arguments'\x7d\x7d`
(the constant `'type': 'function'` field is omitted). -/
structure AccumulatedCall where
  id : Option String
  name : Option String
  arguments : String
deriving Repr, DecidableEq

/-- The body of the tool-call accumulation step (src/main.py lines
335-352): skip if the delta has no `function`; append a fresh entry when
`len(function_calls) <= tool_call.index`; then, if the delta carries a
truthy argument fragment, append it to
`function_calls[tool_call.index]`, which raises `IndexError` when that
position does not exist. -/
def accumulate_tool_call (function_calls : List AccumulatedCall)
    (tc : ToolCallDelta) : Except String (List AccumulatedCall) :=
  match tc.function with
  | none => .ok function_calls
  | some f =>
    let function_calls :=
      if function_calls.length ≤ tc.index then
        function_calls ++ [{ id := tc.id, name := f.name, arguments := "" }]
      else function_calls
    match f.arguments with
    | none => .ok function_calls
    | some args =>
      if args = "" then .ok function_calls
      else
        match function_calls[tc.index]? with
        | some entry =>
          .ok (function_calls.set tc.index
            { entry with arguments := entry.arguments ++ args })
        | none => .error "IndexError: list index out of range"

/-- The `for tool_call in chunk.choices[0].delta.tool_calls` loop: left
fold of `accumulate_tool_call`, stopping at the first raised error. -/
def accumulate_tool_calls (function_calls : List AccumulatedCall) :
    List ToolCallDelta → Except String (List AccumulatedCall)
  | [] => .ok function_calls
  | tc :: rest =>
    match accumulate_tool_call function_calls tc with
    | .error e => .error e
    | .ok fcs => accumulate_tool_calls fcs rest

/-- Observable effects of one turn on the Lexia output channel:
`stream_chunk`, `complete_response` (text, usage, optional `file_url`),
and `send_error`. -/
inductive TurnEvent where
  | chunk (text : String)
  | final (text : String) (usage : Option String) (file_url : Option String)
  | error (text : String)
deriving Repr, DecidableEq

/-- One chunk of the streamed completion: optional content text, tool-call
deltas (an empty list when `delta.tool_calls` is falsy), and optional
usage payload (kept opaque as a string). -/
structure StreamChunk where
  content : Option String
  tool_calls : List ToolCallDelta
  usage : Option String
deriving Repr, DecidableEq

/-- Events emitted for a chunk's content: a truthy content string is
streamed to Lexia via `stream_chunk`. -/
def content_events (c : Option String) : List TurnEvent :=
  match c with
  | some s => if s = "" then [] else [TurnEvent.chunk s]
  | none => []

/-- `full_response` accumulation for a chunk's content. -/
def content_text (full : String) (c : Option String) : String :=
  match c with
  | some s => if s = "" then full else full ++ s
  | none => full

/-- The `for chunk in stream` loop (src/main.py lines 324-357): stream
truthy content and accumulate it into `full_response`; feed tool-call
deltas to the accumulator (an `IndexError` there aborts the loop, keeping
the events already emitted); retain the latest truthy usage payload.
Returns (events, full_response, usage_info, accumulated calls or error). -/
def consume_stream : List StreamChunk → List AccumulatedCall → String → Option String →
    List TurnEvent × String × Option String × Except String (List AccumulatedCall)
  | [], function_calls, full_response, usage_info =>
    ([], full_response, usage_info, .ok function_calls)
  | c :: rest, function_calls, full_response, usage_info =>
    let evs := content_events c.content
    let full := content_text full_response c.content
    match accumulate_tool_calls function_calls c.tool_calls with
    | .error e => (evs, full, usage_info, .error e)
    | .ok fcs =>
      let usage := if c.usage.isSome then c.usage else usage_info
      let out := consume_stream rest fcs full usage
      (evs ++ out.1, out.2.1, out.2.2.1, out.2.2.2)

/-- Outcome of `json.loads` on the argument buffer followed by the DALL-E
call for one accumulated call: success carries the parsed `prompt` and the
returned image URL; failure carries the exception text (covering both a
JSON parse error and a DALL-E error, caught by the same `except`). -/
inductive CallOutcome where
  | success (prompt url : String)
  | failure (err : String)
deriving Repr, DecidableEq

/-- The `image_result` f-string shared by src/main.py line 391 and
src/function_handler.py line 206. -/
def image_result_text (prompt url : String) : String :=
  "\n\n🎨 **Image Generated Successfully!**\n\n**Prompt:** " ++ prompt ++
    "\n**Image URL:** " ++ url ++ "\n\n*Image created with DALL-E 3*"

/-- Python `str` of an optional name (`None` prints as "None"). -/
def py_str_of_name : Option String → String
  | some s => s
  | none => "None"

/-- The `function_error` f-string of the orchestrator's per-call `except`
(src/main.py lines 400-402). -/
def main_function_error_text (name err : String) : String :=
  "\n\n❌ **Function Execution Error:** Error executing function " ++ name ++ ": " ++ err

/-- The unknown-function result of `execute_function_call`
(src/function_handler.py lines 156-158). -/
def unknown_function_text (name : Option String) : String :=
  "\n\n❌ **Function Error:** Unknown function: " ++ py_str_of_name name

/-- The error result of `_execute_generate_image`'s `except`
(src/function_handler.py lines 216-219). -/
def generate_image_error_text (err : String) : String :=
  "\n\n❌ **Function Execution Error:** Error executing generate_image function: " ++ err

/-- Mutable state of the orchestrator's function-processing loop
(src/main.py lines 362-408): `full_response`, the events streamed so far,
and `generated_image_url`. -/
structure LoopState where
  full_response : String
  events : List TurnEvent
  generated_image_url : Option String
deriving Repr, DecidableEq

/-- One iteration of the orchestrator's own function loop (src/main.py
lines 366-404): only calls named "generate_image" are handled — on
success the image URL overwrites `generated_image_url` and the image
result text is appended and streamed; on failure (JSON parse or DALL-E)
the per-call `except` appends and streams an error text; any other name
falls through the `if` and contributes nothing. -/
def process_function_call_main (oracle : AccumulatedCall → CallOutcome)
    (st : LoopState) (fc : AccumulatedCall) : LoopState :=
  if fc.name = some "generate_image" then
    match oracle fc with
    | .success prompt url =>
      let txt := image_result_text prompt url
      { full_response := st.full_response ++ txt,
        events := st.events ++ [TurnEvent.chunk txt],
        generated_image_url := some url }
    | .failure e =>
      let txt := main_function_error_text (py_str_of_name fc.name) e
      { st with
        full_response := st.full_response ++ txt,
        events := st.events ++ [TurnEvent.chunk txt] }
  else st

/-- The `for function_call in function_calls` loop of the orchestrator. -/
def process_function_calls_main (oracle : AccumulatedCall → CallOutcome)
    (st : LoopState) (function_calls : List AccumulatedCall) : LoopState :=
  function_calls.foldl (process_function_call_main oracle) st

/-- The error message of src/main.py line 194. -/
def key_missing_error : String := "OpenAI API key not found in variables"

/-- `process_message` (src/main.py lines 139-430) as a pure function from
its inputs and oracles to (emitted events, resulting thread history).
`openai_api_key` is the result of `get_openai_api_key(data.variables)`;
`stream` is the upstream completion call, `.error` when opening or
iterating the stream raises; `oracle` resolves each accumulated call.
A missing key sends one error and returns before touching the store; an
exception raised while streaming or accumulating reaches the outer
`except`, which sends exactly one error, so the assistant append on line
411 and the `complete_response` on lines 417-423 never run. -/
def process_message (openai_api_key : Option String)
    (stream : Except String (List StreamChunk))
    (oracle : AccumulatedCall → CallOutcome)
    (max_history : Nat) (thread_history : List StoredMessage)
    (message ts_user ts_assistant : String) :
    List TurnEvent × List StoredMessage :=
  if truthy openai_api_key then
    let history₁ := add_message max_history thread_history "user" message ts_user
    match stream with
    | .error e => ([TurnEvent.error ("Error processing message: " ++ e)], history₁)
    | .ok chunks =>
      let out := consume_stream chunks [] "" none
      match out.2.2.2 with
      | .error e =>
        (out.1 ++ [TurnEvent.error ("Error processing message: " ++ e)], history₁)
      | .ok fcs =>
        let st := process_function_calls_main oracle
          { full_response := out.2.1, events := [], generated_image_url := none } fcs
        let history₂ := add_message max_history history₁ "assistant" st.full_response ts_assistant
        (out.1 ++ st.events ++
          [TurnEvent.final st.full_response out.2.2.1 st.generated_image_url],
         history₂)
  else
    ([TurnEvent.error key_missing_error], thread_history)

/-- `execute_function_call` (src/function_handler.py lines 129-164),
restricted to its returned `(result_message, file_url)` pair: a
"generate_image" call is resolved by the oracle (its errors are caught
inside `_execute_generate_image` and turned into a textual error result
with no attachment, so nothing raises past this boundary); any other name
yields the unknown-function text with no attachment. -/
def execute_function_call (oracle : AccumulatedCall → CallOutcome)
    (function_call : AccumulatedCall) : String × Option String :=
  if function_call.name = some "generate_image" then
    match oracle function_call with
    | .success prompt url => (image_result_text prompt url, some url)
    | .failure e => (generate_image_error_text e, none)
  else
    (unknown_function_text function_call.name, none)

/-- One iteration of the `process_function_calls` loop
(src/function_handler.py lines 256-267): concatenate the per-call result
text and record the first truthy `file_url`
(`if file_url and not generated_file_url`).  The surrounding `except` is
unreachable because `execute_function_call` is total. -/
def dispatch_step (oracle : AccumulatedCall → CallOutcome)
    (acc : String × Option String) (fc : AccumulatedCall) : String × Option String :=
  let r := execute_function_call oracle fc
  (acc.1 ++ r.1, if truthy r.2 && !truthy acc.2 then r.2 else acc.2)

/-- `process_function_calls` (src/function_handler.py lines 230-269):
left fold of `dispatch_step` from the empty result and no attachment. -/
def process_function_calls (oracle : AccumulatedCall → CallOutcome)
    (function_calls : List AccumulatedCall) : String × Option String :=
  function_calls.foldl (dispatch_step oracle) ("", none)

/-- Modelled from the spec: "record the first non-absent attachment URL
encountered".  The first truthy URL of a list, used to compare the
dispatcher's attachment policy against the spec's words. -/
def first_truthy : List (Option String) → Option String
  | [] => none
  | u :: rest => if truthy u then u else first_truthy rest

/-- The attachment-recording fold of `process_function_calls`, isolated on
the URL component. -/
def url_fold (g : Option String) (urls : List (Option String)) : Option String :=
  urls.foldl (fun acc u => if truthy u && !truthy acc then u else acc) g

/-- Whether an output-channel event is a `send_error` notification. -/
def is_error_event : TurnEvent → Bool
  | .error _ => true
  | _ => false

/-- Whether an output-channel event is a `complete_response`. -/
def is_final_event : TurnEvent → Bool
  | .final _ _ _ => true
  | _ => false

/-- Number of error notifications among the emitted events. -/
def error_count (evs : List TurnEvent) : Nat :=
  (evs.filter is_error_event).length

/-- Whether the turn suffers an uncaught failure between opening the
stream and the end of accumulation: the completion call itself raises, or
the accumulation loop raises an `IndexError`. -/
def stream_turn_fails (stream : Except String (List StreamChunk)) : Bool :=
  match stream with
  | .error _ => true
  | .ok chunks =>
    match (consume_stream chunks [] "" none).2.2.2 with
    | .error _ => true
    | .ok _ => false

/-- The `file_url` carried by the turn's `complete_response`, read off the
last emitted event (`none` when the turn did not complete). -/
def final_file_url (evs : List TurnEvent) : Option (Option String) :=
  match evs.getLast? with
  | some (.final _ _ u) => some u
  | _ => none

/-- A sequence of `add_message` calls on one fresh thread; each element is
(role, content, timestamp). -/
def run_thread (max_history : Nat) (msgs : List (String × String × String)) :
    List StoredMessage :=
  msgs.foldl (fun t m => add_message max_history t m.1 m.2.1 m.2.2) []

/-- Lines 199-206 of src/main.py: append the inbound user message to the
store, read the history back, and format the provider message list. -/
def build_provider_messages (max_history : Nat) (thread : List StoredMessage)
    (message timestamp system_prompt : String) : List OAIMessage :=
  let thread' := add_message max_history thread "user" message timestamp
  format_messages_for_openai system_prompt (get_history thread') message

/-- Concrete oracle for the attachment-policy counterexample: the call
whose argument buffer is "A" yields URL u1, any other yields u2. -/
def c3_oracle : AccumulatedCall → CallOutcome := fun fc =>
  if fc.arguments = "A" then .success "p1" "http://u1" else .success "p2" "http://u2"

/-- Concrete stream chunk delivering two in-order generate_image tool
calls with argument buffers "A" and "B". -/
def c3_chunk : StreamChunk :=
  { content := none,
    tool_calls :=
      [{ index := 0, id := some "id0",
         function := some { name := some "generate_image", arguments := some "A" } },
       { index := 1, id := some "id1",
         function := some { name := some "generate_image", arguments := some "B" } }],
    usage := none }

/-- The two calls accumulated from `c3_chunk`. -/
def c3_calls : List AccumulatedCall :=
  [{ id := some "id0", name := some "generate_image", arguments := "A" },
   { id := some "id1", name := some "generate_image", arguments := "B" }]

/-- Appending the empty string on the left is the identity. -/
theorem string_empty_append (s : String) : "" ++ s = s := rfl

/-- Characterization of a run of `add_message` calls started from a thread
already within the bound: the result is the suffix of all messages that
keeps the most recent `max_history` of them. -/
theorem add_message_foldl (max_history : Nat) (h : List StoredMessage)
    (msgs : List (String × String × String)) (hh : h.length ≤ max_history) :
    msgs.foldl (fun t m => add_message max_history t m.1 m.2.1 m.2.2) h
      = (h ++ msgs.map fun m => (⟨m.1, m.2.1, m.2.2⟩ : StoredMessage)).drop
          (h.length + msgs.length - max_history) := by
  induction msgs generalizing h with
  | nil =>
    simp only [List.foldl_nil, List.map_nil, List.append_nil, List.length_nil, Nat.add_zero]
    rw [Nat.sub_eq_zero_of_le hh, List.drop_zero]
  | cons m ms ih =>
    simp only [List.foldl_cons, List.map_cons, List.length_cons]
    by_cases hc :
        max_history < (h ++ [(⟨m.1, m.2.1, m.2.2⟩ : StoredMessage)]).length
    · have hadd : add_message max_history h m.1 m.2.1 m.2.2
          = (h ++ [(⟨m.1, m.2.1, m.2.2⟩ : StoredMessage)]).drop 1 := by
        simp only [add_message]
        rw [if_pos hc]
      rw [hadd]
      have hlen : h.length = max_history := by
        simp only [List.length_append, List.length_singleton] at hc; omega
      have hh' :
          ((h ++ [(⟨m.1, m.2.1, m.2.2⟩ : StoredMessage)]).drop 1).length ≤ max_history := by
        simp only [List.length_drop, List.length_append, List.length_singleton]; omega
      rw [ih _ hh']
      have e₂ :
          ((h ++ [(⟨m.1, m.2.1, m.2.2⟩ : StoredMessage)]).drop 1).length + ms.length
              - max_history = ms.length := by
        simp only [List.length_drop, List.length_append, List.length_singleton]; omega
      rw [e₂]
      have e₁ : h.length + (ms.length + 1) - max_history = ms.length + 1 := by omega
      conv_rhs => rw [List.append_cons, e₁, Nat.add_comm ms.length 1, ← List.drop_drop]
      congr 1
      refine (List.drop_append_of_le_length ?_).symm
      simp only [List.length_append, List.length_singleton]
      omega
    · have hadd : add_message max_history h m.1 m.2.1 m.2.2
          = h ++ [(⟨m.1, m.2.1, m.2.2⟩ : StoredMessage)] := by
        simp only [add_message]
        rw [if_neg hc]
      rw [hadd]
      have hh' : (h ++ [(⟨m.1, m.2.1, m.2.2⟩ : StoredMessage)]).length ≤ max_history := by
        simp only [List.length_append, List.length_singleton] at hc ⊢; omega
      rw [ih _ hh']
      have e₁ :
          (h ++ [(⟨m.1, m.2.1, m.2.2⟩ : StoredMessage)]).length + ms.length - max_history
            = h.length + (ms.length + 1) - max_history := by
        simp only [List.length_append, List.length_singleton]; omega
      rw [e₁, List.append_assoc]
      rfl

/-- C2: for every sequence of `add_message` calls on one thread of a
`ConversationManager` with maximum size `max_history`, the stored history
has length at most `max_history` and consists of exactly the most recently
added messages in arrival order (oldest evicted first).  Applying the
statement to each prefix of the sequence gives the invariant after each
call. -/
theorem conversation_history_bounded (max_history : Nat)
    (msgs : List (String × String × String)) :
    (run_thread max_history msgs).length ≤ max_history ∧
    run_thread max_history msgs
      = (msgs.map fun m => (⟨m.1, m.2.1, m.2.2⟩ : StoredMessage)).drop
          (msgs.length - max_history) := by
  have h := add_message_foldl max_history [] msgs (by simp)
  simp only [List.nil_append, List.length_nil, Nat.zero_add] at h
  rw [run_thread] at *
  constructor
  · rw [h]
    simp only [List.length_drop, List.length_map]
    omega
  · exact h

/-- C8: `format_system_prompt` is a pure function with
`format_system_prompt none none` equal to the fixed default prompt, and
`format_system_prompt (some "X") (some "Y")` equal to "X" followed by a
blank line and the labeled context block containing "Y". -/
theorem format_system_prompt_default_and_context :
    format_system_prompt none none = "You are a helpful AI assistant." ∧
    format_system_prompt (some "X") (some "Y") = "X\n\nProject Context: Y" :=
  ⟨rfl, rfl⟩

/-- C1 (code evaluated at the failing input): when the stream delivers a
tool-call fragment for index 1 before any fragment for index 0 exists, the
accumulation loop of `process_message` appends the single new entry at
position 0 and then raises `IndexError` while writing the argument
fragment at position 1; the whole turn therefore fails with one error
notification instead of finalizing with index 0 absent and index 1's data
at index 1.  The second conjunct shows the no-argument variant: the entry
carrying index 1's id and name lands at position 0 of a one-element list. -/
theorem tool_call_index_gap_behavior :
    accumulate_tool_call []
        { index := 1, id := some "id1",
          function := some { name := some "f", arguments := some "x" } }
      = .error "IndexError: list index out of range" ∧
    accumulate_tool_call []
        { index := 1, id := some "id1",
          function := some { name := some "f", arguments := none } }
      = .ok [{ id := some "id1", name := some "f", arguments := "" }] ∧
    (process_message (some "k")
        (.ok [{ content := none,
                tool_calls := [{ index := 1, id := some "id1",
                                 function := some { name := some "f",
                                                    arguments := some "x" } }],
                usage := none }])
        (fun _ => CallOutcome.failure "unused") 10 [] "hi" "t1" "t2").1
      = [TurnEvent.error "Error processing message: IndexError: list index out of range"] :=
  ⟨rfl, rfl, rfl⟩

/-- Every event emitted for a chunk's content is a streamed text chunk. -/
theorem content_events_chunk (c : Option String) :
    ∀ ev ∈ content_events c, ∃ s, ev = TurnEvent.chunk s := by
  intro ev hev
  cases c with
  | none => simp [content_events] at hev
  | some s =>
    simp only [content_events] at hev
    by_cases hs : s = ""
    · rw [if_pos hs] at hev
      simp at hev
    · rw [if_neg hs] at hev
      simp at hev
      exact ⟨s, hev⟩

/-- Every event emitted while consuming the stream is a streamed text
chunk: neither `send_error` nor `complete_response` is called inside the
`for chunk in stream` loop. -/
theorem consume_stream_events_chunk (chunks : List StreamChunk) :
    ∀ fcs full usage, ∀ ev ∈ (consume_stream chunks fcs full usage).1,
      ∃ s, ev = TurnEvent.chunk s := by
  induction chunks with
  | nil =>
    intro fcs full usage ev hev
    simp [consume_stream] at hev
  | cons c rest ih =>
    intro fcs full usage ev hev
    simp only [consume_stream] at hev
    cases hacc : accumulate_tool_calls fcs c.tool_calls with
    | error e =>
      rw [hacc] at hev
      simp only [List.mem_append] at hev
      exact content_events_chunk _ ev hev
    | ok fcs₁ =>
      rw [hacc] at hev
      simp only [List.mem_append] at hev
      rcases hev with hev | hev
      · exact content_events_chunk _ ev hev
      · exact ih _ _ _ ev hev

/-- Error notifications count distributes over concatenation. -/
theorem error_count_append (a b : List TurnEvent) :
    error_count (a ++ b) = error_count a + error_count b := by
  simp [error_count, List.filter_append]

/-- A list of streamed text chunks contains no error notification. -/
theorem error_count_all_chunk (evs : List TurnEvent)
    (h : ∀ ev ∈ evs, ∃ s, ev = TurnEvent.chunk s) : error_count evs = 0 := by
  simp only [error_count, List.length_eq_zero]
  rw [List.filter_eq_nil_iff]
  intro ev hev
  obtain ⟨s, rfl⟩ := h ev hev
  simp [is_error_event]

/-- C4: if an uncaught failure occurs between opening the streamed
completion and the end of accumulation (the completion call raises, or the
tool-call accumulation raises an `IndexError`), `process_message` emits
exactly one error notification, never calls `complete_response`, and
appends no assistant-role message to the store: the thread history is
exactly the user-append performed at the start of the turn. -/
theorem failed_turn_single_error (openai_api_key : Option String)
    (stream : Except String (List StreamChunk))
    (oracle : AccumulatedCall → CallOutcome) (max_history : Nat)
    (thread_history : List StoredMessage) (message ts_user ts_assistant : String)
    (hkey : truthy openai_api_key = true)
    (hfail : stream_turn_fails stream = true) :
    error_count (process_message openai_api_key stream oracle max_history
        thread_history message ts_user ts_assistant).1 = 1 ∧
    (∀ ev ∈ (process_message openai_api_key stream oracle max_history
        thread_history message ts_user ts_assistant).1, is_final_event ev = false) ∧
    (process_message openai_api_key stream oracle max_history
        thread_history message ts_user ts_assistant).2
      = add_message max_history thread_history "user" message ts_user := by
  cases stream with
  | error e =>
    have hpm : process_message openai_api_key (Except.error e) oracle max_history
        thread_history message ts_user ts_assistant
      = ([TurnEvent.error ("Error processing message: " ++ e)],
         add_message max_history thread_history "user" message ts_user) := by
      simp only [process_message]
      rw [if_pos hkey]
    rw [hpm]
    refine ⟨rfl, ?_, rfl⟩
    intro ev hev
    simp at hev
    subst hev
    rfl
  | ok chunks =>
    have hres : ∃ e, (consume_stream chunks [] "" none).2.2.2 = .error e := by
      simp only [stream_turn_fails] at hfail
      cases hr : (consume_stream chunks [] "" none).2.2.2 with
      | error e => exact ⟨e, rfl⟩
      | ok fcs => rw [hr] at hfail; simp at hfail
    obtain ⟨e, he⟩ := hres
    have hpm : process_message openai_api_key (Except.ok chunks) oracle max_history
        thread_history message ts_user ts_assistant
      = ((consume_stream chunks [] "" none).1 ++
          [TurnEvent.error ("Error processing message: " ++ e)],
         add_message max_history thread_history "user" message ts_user) := by
      simp only [process_message]
      rw [if_pos hkey, he]
    rw [hpm]
    refine ⟨?_, ?_, rfl⟩
    · rw [error_count_append,
        error_count_all_chunk _ (consume_stream_events_chunk chunks [] "" none)]
      rfl
    · intro ev hev
      rcases List.mem_append.mp hev with h₁ | h₁
      · obtain ⟨s, rfl⟩ := consume_stream_events_chunk chunks [] "" none ev h₁
        rfl
      · simp at h₁
        subst h₁
        rfl

/-- Witness for C4 at a concrete failing input: the upstream completion
call raises "boom". -/
theorem failed_turn_single_error_witness :
    truthy (some "k") = true ∧ stream_turn_fails (Except.error "boom") = true ∧
    (error_count (process_message (some "k") (Except.error "boom")
        (fun _ => CallOutcome.failure "unused") 10 [] "hi" "t1" "t2").1 = 1 ∧
      (∀ ev ∈ (process_message (some "k") (Except.error "boom")
          (fun _ => CallOutcome.failure "unused") 10 [] "hi" "t1" "t2").1,
        is_final_event ev = false) ∧
      (process_message (some "k") (Except.error "boom")
          (fun _ => CallOutcome.failure "unused") 10 [] "hi" "t1" "t2").2
        = add_message 10 [] "user" "hi" "t1") :=
  ⟨rfl, rfl, failed_turn_single_error (some "k") (Except.error "boom")
    (fun _ => CallOutcome.failure "unused") 10 [] "hi" "t1" "t2" rfl rfl⟩

/-- C6: when the inbound request's variables bag yields no OpenAI API key
(`get_openai_api_key` returns a falsy value), `process_message` reports
the fixed textual error message and returns; the result is the same for
every possible upstream stream, so no streamed completion is ever opened,
and the store is untouched. -/
theorem missing_key_errors_without_provider (openai_api_key : Option String)
    (stream : Except String (List StreamChunk))
    (oracle : AccumulatedCall → CallOutcome) (max_history : Nat)
    (thread_history : List StoredMessage) (message ts_user ts_assistant : String)
    (hkey : truthy openai_api_key = false) :
    process_message openai_api_key stream oracle max_history thread_history
        message ts_user ts_assistant
      = ([TurnEvent.error key_missing_error], thread_history) := by
  simp only [process_message, hkey]
  rfl

/-- Witness for C6: no key in the variables bag, an arbitrary stream. -/
theorem missing_key_errors_without_provider_witness :
    truthy none = false ∧
    process_message none (Except.ok [c3_chunk]) c3_oracle 10 [] "hi" "t1" "t2"
      = ([TurnEvent.error key_missing_error], []) :=
  ⟨rfl, missing_key_errors_without_provider none (Except.ok [c3_chunk]) c3_oracle
    10 [] "hi" "t1" "t2" rfl⟩

/-- C10: in the orchestrator's own function-processing loop, a completed
tool call whose name is not "generate_image" is skipped silently: the loop
state — reply text, streamed events, attachment URL — is unchanged. -/
theorem non_image_call_skipped (oracle : AccumulatedCall → CallOutcome)
    (st : LoopState) (fc : AccumulatedCall)
    (h : fc.name ≠ some "generate_image") :
    process_function_call_main oracle st fc = st := by
  unfold process_function_call_main
  rw [if_neg h]

/-- Witness for C10: a call named "get_weather" leaves the loop state
untouched. -/
theorem non_image_call_skipped_witness :
    ({ id := some "id0", name := some "get_weather", arguments := "" }
        : AccumulatedCall).name ≠ some "generate_image" ∧
    process_function_call_main (fun _ => CallOutcome.failure "e")
        { full_response := "r", events := [TurnEvent.chunk "r"], generated_image_url := none }
        { id := some "id0", name := some "get_weather", arguments := "" }
      = { full_response := "r", events := [TurnEvent.chunk "r"], generated_image_url := none } :=
  ⟨by decide, non_image_call_skipped (fun _ => CallOutcome.failure "e")
    { full_response := "r", events := [TurnEvent.chunk "r"], generated_image_url := none }
    { id := some "id0", name := some "get_weather", arguments := "" } (by decide)⟩

/-- The attachment component of the dispatcher's fold depends only on the
per-call `file_url`s: it equals `url_fold` over them, from any starting
accumulator. -/
theorem dispatch_foldl_snd (oracle : AccumulatedCall → CallOutcome)
    (calls : List AccumulatedCall) :
    ∀ s g, (calls.foldl (dispatch_step oracle) (s, g)).2
      = url_fold g (calls.map fun c => (execute_function_call oracle c).2) := by
  induction calls with
  | nil =>
    intro s g
    simp [url_fold]
  | cons fc cs ih =>
    intro s g
    simp only [List.foldl_cons, List.map_cons, dispatch_step]
    rw [ih]
    simp only [url_fold, List.foldl_cons]

/-- Once the fold holds a truthy URL it keeps it forever. -/
theorem url_fold_of_truthy (urls : List (Option String)) :
    ∀ g, truthy g = true → url_fold g urls = g := by
  induction urls with
  | nil => intro g _; rfl
  | cons u us ih =>
    intro g hg
    have hcond : (truthy u && !truthy g) = false := by
      rw [hg]
      simp
    simp only [url_fold, List.foldl_cons, hcond, Bool.false_eq_true, if_false]
    exact ih g hg

/-- Starting from no attachment, the fold records the first truthy URL. -/
theorem url_fold_none_eq_first_truthy (urls : List (Option String)) :
    url_fold none urls = first_truthy urls := by
  induction urls with
  | nil => rfl
  | cons u us ih =>
    simp only [url_fold, List.foldl_cons, first_truthy]
    cases hu : truthy u with
    | true =>
      have hcond : (truthy u && !truthy none) = true := by rw [hu]; rfl
      simp only [hcond, if_true, hu]
      exact url_fold_of_truthy us u hu
    | false =>
      have hcond : (truthy u && !truthy none) = false := by rw [hu]; rfl
      simp only [hcond, Bool.false_eq_true, if_false, hu]
      exact ih

/-- C7: dispatching a completed call whose function name has no registered
handler ("generate_image" is the only one) returns the textual
unknown-function result with no attachment URL; dispatch is a total
function, so nothing is raised, and processing simply continues over the
remaining calls of the turn with the attachment accumulator unchanged. -/
theorem unknown_function_isolated (oracle : AccumulatedCall → CallOutcome)
    (fc : AccumulatedCall) (rest : List AccumulatedCall)
    (h : fc.name ≠ some "generate_image") :
    execute_function_call oracle fc = (unknown_function_text fc.name, none) ∧
    process_function_calls oracle (fc :: rest)
      = rest.foldl (dispatch_step oracle) (unknown_function_text fc.name, none) ∧
    (process_function_calls oracle (fc :: rest)).2
      = (process_function_calls oracle rest).2 := by
  have hex : execute_function_call oracle fc = (unknown_function_text fc.name, none) := by
    unfold execute_function_call
    rw [if_neg h]
  have hstep : dispatch_step oracle ("", none) fc
      = (unknown_function_text fc.name, none) := by
    simp only [dispatch_step, hex]
    rfl
  refine ⟨hex, ?_, ?_⟩
  · simp only [process_function_calls, List.foldl_cons, hstep]
  · simp only [process_function_calls, List.foldl_cons, hstep]
    rw [dispatch_foldl_snd, dispatch_foldl_snd]

/-- Witness for C7: a call named "weather" is reported unknown with no
attachment, and a later successful generate_image call still goes
through. -/
theorem unknown_function_isolated_witness :
    ({ id := some "id9", name := some "weather", arguments := "A" }
        : AccumulatedCall).name ≠ some "generate_image" ∧
    (execute_function_call c3_oracle
        { id := some "id9", name := some "weather", arguments := "A" }
      = (unknown_function_text (some "weather"), none) ∧
    process_function_calls c3_oracle
        ({ id := some "id9", name := some "weather", arguments := "A" } :: c3_calls)
      = c3_calls.foldl (dispatch_step c3_oracle) (unknown_function_text (some "weather"), none) ∧
    (process_function_calls c3_oracle
        ({ id := some "id9", name := some "weather", arguments := "A" } :: c3_calls)).2
      = (process_function_calls c3_oracle c3_calls).2) :=
  ⟨by decide, unknown_function_isolated c3_oracle
    { id := some "id9", name := some "weather", arguments := "A" } c3_calls (by decide)⟩

/-- C5: when one dispatched call's handler fails, `execute_function_call`
returns a textual error result with no attachment (the error is caught
inside the dispatcher, so nothing raises past the per-call boundary), and
a second, unrelated successful call in the same turn still returns its
normal result: the combined turn result carries both texts and the
successful call's attachment. -/
theorem per_call_isolation (oracle : AccumulatedCall → CallOutcome)
    (fc₁ fc₂ : AccumulatedCall) (e p url : String)
    (h₁ : fc₁.name = some "generate_image") (h₂ : oracle fc₁ = CallOutcome.failure e)
    (h₃ : fc₂.name = some "generate_image") (h₄ : oracle fc₂ = CallOutcome.success p url)
    (hurl : url ≠ "") :
    execute_function_call oracle fc₁ = (generate_image_error_text e, none) ∧
    execute_function_call oracle fc₂ = (image_result_text p url, some url) ∧
    process_function_calls oracle [fc₁, fc₂]
      = (generate_image_error_text e ++ image_result_text p url, some url) := by
  have hx₁ : execute_function_call oracle fc₁ = (generate_image_error_text e, none) := by
    unfold execute_function_call
    rw [if_pos h₁, h₂]
  have hx₂ : execute_function_call oracle fc₂ = (image_result_text p url, some url) := by
    unfold execute_function_call
    rw [if_pos h₃, h₄]
  have hu : truthy (some url) = true := by
    simp [truthy, hurl]
  refine ⟨hx₁, hx₂, ?_⟩
  simp only [process_function_calls, List.foldl_cons, List.foldl_nil, dispatch_step,
    hx₁, hx₂]
  simp [hu, string_empty_append, truthy, hurl]

/-- Witness for C5: the first generate_image call fails with "boom", the
second succeeds with an image URL; both results survive in the combined
turn output. -/
theorem per_call_isolation_witness :
    ({ id := some "a", name := some "generate_image", arguments := "bad" }
        : AccumulatedCall).name = some "generate_image" ∧
    (fun fc : AccumulatedCall => if fc.arguments = "bad" then CallOutcome.failure "boom"
        else CallOutcome.success "a cat" "http://img")
      { id := some "a", name := some "generate_image", arguments := "bad" }
      = CallOutcome.failure "boom" ∧
    (execute_function_call
        (fun fc : AccumulatedCall => if fc.arguments = "bad" then CallOutcome.failure "boom"
          else CallOutcome.success "a cat" "http://img")
        { id := some "a", name := some "generate_image", arguments := "bad" }
      = (generate_image_error_text "boom", none) ∧
    execute_function_call
        (fun fc : AccumulatedCall => if fc.arguments = "bad" then CallOutcome.failure "boom"
          else CallOutcome.success "a cat" "http://img")
        { id := some "b", name := some "generate_image", arguments := "ok" }
      = (image_result_text "a cat" "http://img", some "http://img") ∧
    process_function_calls
        (fun fc : AccumulatedCall => if fc.arguments = "bad" then CallOutcome.failure "boom"
          else CallOutcome.success "a cat" "http://img")
        [{ id := some "a", name := some "generate_image", arguments := "bad" },
         { id := some "b", name := some "generate_image", arguments := "ok" }]
      = (generate_image_error_text "boom" ++ image_result_text "a cat" "http://img",
         some "http://img")) :=
  ⟨rfl, rfl, per_call_isolation
    (fun fc : AccumulatedCall => if fc.arguments = "bad" then CallOutcome.failure "boom"
      else CallOutcome.success "a cat" "http://img")
    { id := some "a", name := some "generate_image", arguments := "bad" }
    { id := some "b", name := some "generate_image", arguments := "ok" }
    "boom" "a cat" "http://img" rfl rfl rfl rfl (by decide)⟩

/-- C3 amended: the two attachment policies in the code.  In the
dispatcher module, `process_function_calls` records the first truthy
attachment URL in accumulation order and ignores later ones; but the
orchestrator's own loop in `process_message` overwrites
`generated_image_url` on every successful generate_image call, so the
URL recorded for the turn's final response is the last successful one,
not the first. -/
theorem attachment_url_policies (oracle : AccumulatedCall → CallOutcome)
    (calls : List AccumulatedCall) (st : LoopState) (fc : AccumulatedCall)
    (p url : String)
    (hname : fc.name = some "generate_image")
    (hsucc : oracle fc = CallOutcome.success p url) :
    (process_function_calls oracle calls).2
      = first_truthy (calls.map fun c => (execute_function_call oracle c).2) ∧
    (process_function_call_main oracle st fc).generated_image_url = some url := by
  constructor
  · rw [process_function_calls, dispatch_foldl_snd, url_fold_none_eq_first_truthy]
  · unfold process_function_call_main
    rw [if_pos hname, hsucc]

/-- Witness for the amended C3: with the loop state already holding URL
u1, a further successful call overwrites it with u2, while the dispatcher
module keeps the first truthy URL. -/
theorem attachment_url_policies_witness :
    ({ id := some "id1", name := some "generate_image", arguments := "B" }
        : AccumulatedCall).name = some "generate_image" ∧
    c3_oracle { id := some "id1", name := some "generate_image", arguments := "B" }
      = CallOutcome.success "p2" "http://u2" ∧
    ((process_function_calls c3_oracle c3_calls).2
        = first_truthy (c3_calls.map fun c => (execute_function_call c3_oracle c).2) ∧
      (process_function_call_main c3_oracle
          { full_response := "", events := [], generated_image_url := some "http://u1" }
          { id := some "id1", name := some "generate_image", arguments := "B" }).generated_image_url
        = some "http://u2") :=
  ⟨rfl, rfl, attachment_url_policies c3_oracle c3_calls
    { full_response := "", events := [], generated_image_url := some "http://u1" }
    { id := some "id1", name := some "generate_image", arguments := "B" }
    "p2" "http://u2" rfl rfl⟩

/-- C3 counterexample: a turn whose stream yields two generate_image
calls producing URLs u1 then u2.  The first non-absent attachment URL in
accumulation order is u1, but the `complete_response` emitted by
`process_message` carries u2: the claim that the first non-absent URL is
recorded for the turn's final response is false on the orchestrator. -/
theorem attachment_url_first_wins_counterexample :
    (consume_stream [c3_chunk] [] "" none).2.2.2 = .ok c3_calls ∧
    first_truthy (c3_calls.map fun c => (execute_function_call c3_oracle c).2)
      = some "http://u1" ∧
    final_file_url (process_message (some "k") (.ok [c3_chunk]) c3_oracle 10 []
        "Draw a cat" "t1" "t2").1 = some (some "http://u2") ∧
    (some "http://u2" : Option String) ≠ some "http://u1" :=
  ⟨rfl, rfl, rfl, by decide⟩

/-- C9: for every processed turn whose store maximum size is at least 1,
the message list sent to the provider ends with the inbound user message
twice: once as the last history entry (the orchestrator appends the user
message to the store before reading history back) and once as the final
current-message entry appended by `format_messages_for_openai`. -/
theorem provider_messages_duplicate_user (max_history : Nat)
    (thread : List StoredMessage) (message timestamp system_prompt : String)
    (hmax : 1 ≤ max_history) :
    ∃ ms, build_provider_messages max_history thread message timestamp system_prompt
      = ms ++ [{ role := "user", content := message },
               { role := "user", content := message }] := by
  simp only [build_provider_messages, get_history, format_messages_for_openai, add_message]
  by_cases hc : max_history <
      (thread ++ [({ role := "user", content := message, timestamp := timestamp }
        : StoredMessage)]).length
  · rw [if_pos hc]
    have hlen : 1 ≤ thread.length := by
      simp only [List.length_append, List.length_singleton] at hc
      omega
    rw [List.drop_append_of_le_length hlen]
    refine ⟨{ role := "system", content := system_prompt } ::
      (thread.drop 1).map (fun m => { role := m.role, content := m.content }), ?_⟩
    simp [List.map_append]
  · rw [if_neg hc]
    refine ⟨{ role := "system", content := system_prompt } ::
      thread.map (fun m => { role := m.role, content := m.content }), ?_⟩
    simp [List.map_append]

/-- Witness for C9: a fresh thread with maximum size 1; the provider
message list is [system, user "hi", user "hi"]. -/
theorem provider_messages_duplicate_user_witness :
    1 ≤ 1 ∧
    ∃ ms, build_provider_messages 1 [] "hi" "t" "sp"
      = ms ++ [{ role := "user", content := "hi" },
               { role := "user", content := "hi" }] :=
  ⟨by decide, provider_messages_duplicate_user 1 [] "hi" "t" "sp" (by decide)⟩
